import Mathlib

/-!
Verification of the INE data-pipeline scraper core
(`src/steps/step1_scraper.py`, `src/pipeline_orchestrator.py`,
`src/utils/storage_factory.py`) against its natural-language specification.

The Python code is shallowly embedded: dataset descriptors and result
dictionaries become structures, the six-step browser-interaction protocol of
`descargar_dataset` becomes a step machine driven by an abstract behaviour
oracle (which step, if any, raises and with which message), the worker pool of
`scrape_all_concurrent` becomes a processing schedule (a permutation of the
enqueued tasks, each tagged with the worker that executed it), and the
orchestrator's try/except/finally structure becomes explicit `Except`-style
control flow.  Wall-clock readings (`time.time()`) are represented by the
per-attempt duration carried by the behaviour oracle.
-/

/-! ## Filename sanitization (`INEScraperConcurrent.limpiar_nombre_archivo`)

Python source (src/steps/step1_scraper.py lines 50-54):
  nombre_limpio = re.sub(r'[^\w\s-]', '', nombre)
  nombre_limpio = re.sub(r'\s+', '_', nombre_limpio)
  return nombre_limpio[:100]
-/

/-- A word character in the sense of the regex class `\w`
(alphanumeric or underscore). -/
def esCaracterPalabra (c : Char) : Bool :=
  c.isAlphanum || c == '_'

/-- A whitespace character in the sense of the regex class `\s`
(space, tab, newline, vertical tab, form feed, carriage return). -/
def esEspacio (c : Char) : Bool :=
  c == ' ' || c == '\t' || c == '\n' || c == '\x0b' || c == '\x0c' || c == '\r'

/-- A character kept by `re.sub(r'[^\w\s-]', '', nombre)`: word character,
whitespace, or hyphen. -/
def permitido (c : Char) : Bool :=
  esCaracterPalabra c || esEspacio c || c == '-'

/-- `re.sub(r'[^\w\s-]', '', nombre)`: drop every character outside the
class `[\w\s-]`. -/
def quitarNoPermitidos (l : List Char) : List Char :=
  l.filter permitido

/-- `re.sub(r'\s+', '_', nombre_limpio)`: replace every maximal run of
whitespace by a single underscore.  The boolean flag records whether the
scanner is currently inside a whitespace run. -/
def colapsarEspacios : List Char → Bool → List Char
  | [], _ => []
  | c :: resto, enRacha =>
    if esEspacio c then
      if enRacha then colapsarEspacios resto true
      else '_' :: colapsarEspacios resto true
    else c :: colapsarEspacios resto false

/-- `limpiar_nombre_archivo` on character lists: strip disallowed characters,
collapse whitespace runs to underscores, truncate to 100 characters
(`nombre_limpio[:100]`). -/
def limpiarChars (l : List Char) : List Char :=
  (colapsarEspacios (quitarNoPermitidos l) false).take 100

/-- `INEScraperConcurrent.limpiar_nombre_archivo`. -/
def limpiar_nombre_archivo (nombre : String) : String :=
  String.mk (limpiarChars nombre.data)

/-- A character that can appear in a sanitized name: a word character or a
hyphen, and in particular not whitespace. -/
def saneado (c : Char) : Bool :=
  (esCaracterPalabra c || c == '-') && !esEspacio c

/-! ## Data model: dataset descriptors and result records

A catalog entry is `{id, url, nombre, categoria}` (`categoria` may be absent:
`dataset_info.get('categoria', 'general')`).  A result record mirrors the
Python dictionaries built in `descargar_dataset` (lines 238-249 and 258-267)
and extended in `retry_failed_datasets` (lines 421-429); keys absent from a
given dictionary are `none`.
-/

structure DatasetInfo where
  id : String
  url : String
  nombre : String
  categoria : Option String
deriving DecidableEq

structure Registro where
  id : String
  status : String
  filepath : Option String
  nombre : String
  nombre_archivo : Option String
  size : Option Nat
  categoria : Option String
  error : Option String
  paso_fallo : Option String
  url : Option String
  duracion_segundos : ℚ
  worker_id : Nat
  fue_reintentado : Option Bool
  intento_previo_fallo : Option String
deriving DecidableEq

/-- The two shared result collections `self.resultados` (exitosos/fallidos). -/
structure Resultados where
  exitosos : List Registro
  fallidos : List Registro
deriving DecidableEq

/-! ## The six-step interaction protocol of `descargar_dataset`

The body of `descargar_dataset` (lines 102-230) is a sequence of six blocks;
each block first assigns the mutable variable `paso_actual` to its label and
then interacts with the browser, which may raise.  The interaction itself is
abstracted by a behaviour oracle `fails : Paso → Option String` telling which
steps raise and with which exception message; the attempt's wall-clock
duration and the downloaded byte size are carried alongside. -/

inductive Paso
  | navegacion
  | menuExportar
  | opcionCSV
  | modalIframe
  | botonDescargar
  | descargaArchivo
deriving DecidableEq

/-- The string assigned to `paso_actual` at the start of each block. -/
def pasoLabel : Paso → String
  | .navegacion => "navegación"
  | .menuExportar => "búsqueda de menú Exportar"
  | .opcionCSV => "búsqueda de opción CSV"
  | .modalIframe => "acceso a modal (iframe)"
  | .botonDescargar => "búsqueda de botón Descargar"
  | .descargaArchivo => "descarga de archivo"

/-- The six blocks in source order (PASO 1 .. PASO 6). -/
def ordenPasos : List Paso :=
  [.navegacion, .menuExportar, .opcionCSV, .modalIframe, .botonDescargar, .descargaArchivo]

/-- Abstract behaviour of one download attempt: which step (if any) raises,
the byte size obtained when all steps succeed, and the attempt duration
(`time.time() - start_time`). -/
structure Comportamiento where
  fails : Paso → Option String
  size : Nat
  dur : ℚ

/-- Executes the blocks in order, threading the mutable `paso_actual`
(initially `""`).  Returns the final value of `paso_actual` together with the
exception message if some block raised. -/
def runPasos (fails : Paso → Option String) : List Paso → String → String × Option String
  | [], paso_actual => (paso_actual, none)
  | p :: resto, _ =>
    match fails p with
    | some msg => (pasoLabel p, some msg)
    | none => runPasos fails resto (pasoLabel p)

/-- The first step that raises, with its message (specification-side
characterization of where `descargar_dataset` fails). -/
def firstFailing (fails : Paso → Option String) : List Paso → Option (Paso × String)
  | [] => none
  | p :: resto =>
    match fails p with
    | some msg => some (p, msg)
    | none => firstFailing fails resto

/-- `INEScraperConcurrent.descargar_dataset`.  Returns the result record and
the list of storage keys written through `self.storage.save_file` (exactly one
on the success path, none on the failure path; the try/except boundary
converts any step exception into the failure record of lines 258-267). -/
def descargar_dataset (c : Comportamiento) (info : DatasetInfo) (worker_id : Nat)
    (fecha_hoy : String) : Registro × List String :=
  let categoria := info.categoria.getD "general"
  match runPasos c.fails ordenPasos "" with
  | (_, none) =>
    let nombre_archivo := limpiar_nombre_archivo info.nombre
    let filename := nombre_archivo ++ ".csv"
    let subfolder := fecha_hoy ++ "/raw"
    ({ id := info.id
       status := "exitoso"
       filepath := some (subfolder ++ "/" ++ filename)
       nombre := info.nombre
       nombre_archivo := some filename
       size := some c.size
       categoria := some categoria
       error := none
       paso_fallo := none
       url := none
       duracion_segundos := c.dur
       worker_id := worker_id
       fue_reintentado := none
       intento_previo_fallo := none },
     [subfolder ++ "/" ++ filename])
  | (paso_actual, some msg) =>
    ({ id := info.id
       status := "fallido"
       filepath := none
       nombre := info.nombre
       nombre_archivo := none
       size := none
       categoria := none
       error := some msg
       paso_fallo := some paso_actual
       url := some info.url
       duracion_segundos := c.dur
       worker_id := worker_id
       fue_reintentado := none
       intento_previo_fallo := none },
     [])

/-! ## Worker pool, retry pass and the paso-1 pipeline run

`scrape_all_concurrent` (lines 321-379) seeds a queue with every dataset of
`datasets[:MAX_DATASETS]` and runs `MAX_CONCURRENT_BROWSERS` workers; each
worker repeatedly pops a task, calls `descargar_dataset`, and appends the
result to `resultados['exitosos']` or `resultados['fallidos']` under the
shared lock.  A crash-free execution of the pool is therefore a *processing
schedule*: a list of (dataset, worker id) pairs containing each enqueued task
exactly once, ordered by completion; this schedule is the explicit
`procesamiento` parameter below, and theorems quantify over every schedule
whose datasets are a permutation of the processed catalog slice.  The
per-dataset behaviour oracle is keyed by dataset id (and, for a full run, by
attempt number: 0 = concurrent pass, 1 = retry pass). -/

/-- `if Config.MAX_DATASETS: datasets[:MAX_DATASETS] else datasets`
(a zero value is falsy in Python, hence processes the whole catalog). -/
def datasets_a_procesar (maxDatasets : Option Nat) (datasets : List DatasetInfo) :
    List DatasetInfo :=
  match maxDatasets with
  | some m => if m = 0 then datasets else datasets.take m
  | none => datasets

/-- The classification used by `worker` (line 295):
`resultado['status'] == 'exitoso'`. -/
def esExitosoReg (r : Registro) : Bool :=
  r.status == "exitoso"

/-- Whether an attempt with behaviour `c` runs all six steps without an
exception. -/
def descargaExitosa (c : Comportamiento) : Bool :=
  (runPasos c.fails ordenPasos "").2.isNone

/-- The record a worker obtains for one scheduled task. -/
def registroDe (beh : String → Comportamiento) (fecha : String)
    (t : DatasetInfo × Nat) : Registro :=
  (descargar_dataset (beh t.1.id) t.1 t.2 fecha).1

/-- `INEScraperConcurrent.scrape_all_concurrent`, as the result collections
produced by a crash-free processing schedule: every task's record is appended
(under the lock) to `exitosos` when its status is `exitoso` and to `fallidos`
otherwise, in completion order. -/
def scrape_all_concurrent (beh : String → Comportamiento) (fecha : String)
    (procesamiento : List (DatasetInfo × Nat)) : Resultados :=
  let res := procesamiento.map (registroDe beh fecha)
  ⟨res.filter esExitosoReg, res.filter (fun r => !esExitosoReg r)⟩

/-- Lines 410-415: the dataset descriptor rebuilt from a failure record
(`dataset_fallido.get('categoria', 'general')`; failure records carry no
`categoria` key). -/
def reconstruirInfo (f : Registro) : DatasetInfo :=
  { id := f.id
    url := f.url.getD ""
    nombre := f.nombre
    categoria := some (f.categoria.getD "general") }

/-- One iteration of the retry loop (lines 408-429): re-download with
`worker_id=0`, then flag the outcome record with `fue_reintentado=True`,
adding `intento_previo_fallo` when the retry succeeded. -/
def retryOne (beh : String → Comportamiento) (fecha : String) (f : Registro) : Registro :=
  let info := reconstruirInfo f
  let r := (descargar_dataset (beh info.id) info 0 fecha).1
  if esExitosoReg r then
    { r with fue_reintentado := some true
             intento_previo_fallo := some (f.error.getD "Unknown") }
  else
    { r with fue_reintentado := some true }

/-- `INEScraperConcurrent.retry_failed_datasets` (lines 381-447): returns the
updated result collections, the count of retried entries now in `exitosos`,
and the elapsed retry time (modelled as the sum of the attempt durations). -/
def retry_failed_datasets (beh : String → Comportamiento) (fecha : String)
    (r : Resultados) : Resultados × Nat × ℚ :=
  if r.fallidos.isEmpty then (r, 0, 0)
  else
    let reintentados := r.fallidos.map (retryOne beh fecha)
    let nuevosExitosos := reintentados.filter esExitosoReg
    let nuevosFallidos := reintentados.filter (fun x => !esExitosoReg x)
    let resultadosNuevos : Resultados := ⟨r.exitosos ++ nuevosExitosos, nuevosFallidos⟩
    let exitosos_reintento :=
      (resultadosNuevos.exitosos.filter (fun x => x.fue_reintentado.getD false)).length
    let elapsed := (reintentados.map (fun x => x.duracion_segundos)).sum
    (resultadosNuevos, exitosos_reintento, elapsed)

/-- Outcome of the stage-1 run: final collections, retry-success count, and a
ghost log of every `descargar_dataset` call as (dataset id, attempt number). -/
structure SalidaPipeline where
  resultados : Resultados
  exitosos_reintento : Nat
  intentos : List (String × Nat)
deriving DecidableEq

/-- Stage 1 as driven by the orchestrator (src/pipeline_orchestrator.py lines
62-69) and by `main` (lines 589-597): the concurrent pass followed, when
failures remain, by exactly one retry pass. -/
def fullRun (beh : String → Nat → Comportamiento) (fecha : String)
    (procesamiento : List (DatasetInfo × Nat)) : SalidaPipeline :=
  let r1 := scrape_all_concurrent (fun i => beh i 0) fecha procesamiento
  let intentosConcurrentes := procesamiento.map (fun t => (t.1.id, 0))
  if r1.fallidos.isEmpty then ⟨r1, 0, intentosConcurrentes⟩
  else
    let ret := retry_failed_datasets (fun i => beh i 1) fecha r1
    ⟨ret.1, ret.2.1,
     intentosConcurrentes ++ r1.fallidos.map (fun f => ((reconstruirInfo f).id, 1))⟩

/-- Dataset ids of a result collection. -/
def idsDe (l : List Registro) : List String :=
  l.map (fun r => r.id)

/-! ### Concrete fixtures used by the witnesses -/

/-- A behaviour whose six steps all succeed. -/
def compSiempreOk : Comportamiento :=
  ⟨fun _ => none, 1024, 7⟩

/-- A behaviour that raises during PASO 1 (navigation). -/
def compNavegacionFalla : Comportamiento :=
  ⟨fun p => if p = .navegacion then some "net::ERR_TIMED_OUT" else none, 0, 60⟩

def dsetA : DatasetInfo :=
  ⟨"ine-001", "https://stat.ine.cl/a?x=1", "Aire: calidad  urbana", some "medioambiente"⟩

def dsetB : DatasetInfo :=
  ⟨"ine-002", "https://stat.ine.cl/b?x=2", "Población regional", some "demografía"⟩

def catalogoTest : List DatasetInfo := [dsetA, dsetB]

/-- Per-id behaviour: dataset `ine-002` always fails, the rest succeed. -/
def behDosFalla : String → Comportamiento :=
  fun i => if i = "ine-002" then compNavegacionFalla else compSiempreOk

/-- Attempt-indexed behaviour for full runs: `ine-002` fails on both the
concurrent attempt and the retry attempt. -/
def behDosFallaSiempre : String → Nat → Comportamiento :=
  fun i _ => behDosFalla i

/-- A single-worker completion schedule of `catalogoTest`. -/
def procUnWorker : List (DatasetInfo × Nat) := [(dsetA, 1), (dsetB, 1)]

/-- A four-worker completion schedule of `catalogoTest` (different order,
different worker tags). -/
def procCuatroWorkers : List (DatasetInfo × Nat) := [(dsetB, 3), (dsetA, 4)]

/-! ## The pipeline orchestrator (`src/pipeline_orchestrator.py`)

`ejecutar_pipeline_completo` runs six stage blocks inside one `try` whose
`finally` always calls `generar_reporte_consolidado`.  Each stage block does
its work and then calls the stage's own reporter (e.g.
`scraper.generar_reporte` for stage 1); on an exception the block records the
stage in `pasos_fallidos` and re-raises — except stage 6, which swallows the
exception ("No hacemos raise aquí porque queremos generar el reporte final").
Each stage's work is abstracted by `raisesAt`, telling whether the stage body
raises before reaching its reporter call. -/

inductive ReporterRun
  | stage (n : Nat)
  | consolidado
deriving DecidableEq

structure PipeState where
  reporters : List ReporterRun
  pasos_completados : List Nat
  pasos_fallidos : List Nat
deriving DecidableEq

/-- One stage block of `ejecutar_pipeline_completo`: `Except.error` models an
exception propagating out of the block. -/
def runStage (raisesAt : Nat → Bool) (n : Nat) (st : PipeState) :
    Except PipeState PipeState :=
  if raisesAt n then
    let st' : PipeState := { st with pasos_fallidos := st.pasos_fallidos ++ [n] }
    if n == 6 then Except.ok st' else Except.error st'
  else
    Except.ok { st with reporters := st.reporters ++ [ReporterRun.stage n]
                        pasos_completados := st.pasos_completados ++ [n] }

def runStagesDesde (raisesAt : Nat → Bool) : List Nat → PipeState → Except PipeState PipeState
  | [], st => Except.ok st
  | n :: resto, st =>
    match runStage raisesAt n st with
    | Except.ok st' => runStagesDesde raisesAt resto st'
    | Except.error st' => Except.error st'

structure PipeResultado where
  estado : PipeState
  propagaExcepcion : Bool
deriving DecidableEq

/-- `PipelineOrchestrator.ejecutar_pipeline_completo`: the six stages inside
`try ... finally generar_reporte_consolidado()`; the `finally` block runs the
consolidated reporter on both the normal and the exceptional exit path. -/
def ejecutar_pipeline_completo (raisesAt : Nat → Bool) : PipeResultado :=
  match runStagesDesde raisesAt [1, 2, 3, 4, 5, 6] ⟨[], [], []⟩ with
  | Except.ok st =>
    ⟨{ st with reporters := st.reporters ++ [ReporterRun.consolidado] }, false⟩
  | Except.error st =>
    ⟨{ st with reporters := st.reporters ++ [ReporterRun.consolidado] }, true⟩

/-! ## The run reporter (`INEScraperConcurrent.generar_reporte`)

Lines 449-536.  The summary values are computed first (`tasa_exito` already
guards `total > 0`), then the console report is printed — line 481 divides
`tiempo_total_segundos / total` without any guard, so with `total == 0` the
function raises `ZeroDivisionError` before the JSON report is built and
persisted; the `Except.error` branch models that exception.  Rational
arithmetic stands in for Python floats; display rounding (`round(x, 2)`) is
not modelled. -/

structure ResumenReporte where
  total_datasets : Nat
  exitosos : Nat
  exitosos_reintentados : Nat
  fallidos : Nat
  tasa_exito_porcentaje : ℚ
  total_bytes : Nat
  velocidad_segundos_por_dataset : ℚ
deriving DecidableEq

def generar_reporte (r : Resultados) (tiempo_total_segundos : ℚ)
    (exitosos_reintento : Nat) : Except String ResumenReporte :=
  let exitosos := r.exitosos.length
  let fallidos := r.fallidos.length
  let total := exitosos + fallidos
  let tasa_exito : ℚ := if total > 0 then (exitosos : ℚ) / (total : ℚ) * 100 else 0
  let total_size := (r.exitosos.map (fun x => x.size.getD 0)).sum
  if total = 0 then
    Except.error "ZeroDivisionError: division by zero"
  else
    Except.ok
      { total_datasets := total
        exitosos := exitosos
        exitosos_reintentados := exitosos_reintento
        fallidos := fallidos
        tasa_exito_porcentaje := tasa_exito
        total_bytes := total_size
        velocidad_segundos_por_dataset := tiempo_total_segundos / (total : ℚ) }

/-! ## Theorems and supporting lemmas -/

lemma saneado_guion_bajo : saneado '_' = true := by decide

lemma saneado_of_permitido_not_espacio {c : Char} (hp : permitido c = true)
    (he : esEspacio c = false) : saneado c = true := by
  simp only [permitido, Bool.or_eq_true] at hp
  simp only [saneado, he, Bool.not_false, Bool.and_true, Bool.or_eq_true]
  rcases hp with (h | h) | h
  · exact Or.inl h
  · simp [h] at he
  · exact Or.inr h

lemma permitido_of_saneado {c : Char} (hs : saneado c = true) :
    permitido c = true := by
  simp only [saneado, Bool.and_eq_true, Bool.or_eq_true] at hs
  simp only [permitido, Bool.or_eq_true]
  rcases hs.1 with h | h
  · exact Or.inl (Or.inl h)
  · exact Or.inr h

lemma espacio_of_saneado {c : Char} (hs : saneado c = true) :
    esEspacio c = false := by
  simp only [saneado, Bool.and_eq_true, Bool.not_eq_true'] at hs
  exact hs.2

lemma colapsarEspacios_saneado :
    ∀ (l : List Char) (b : Bool), (∀ c ∈ l, permitido c = true) →
      ∀ c ∈ colapsarEspacios l b, saneado c = true := by
  intro l
  induction l with
  | nil => intro b _ c hc; simp [colapsarEspacios] at hc
  | cons a resto ih =>
    intro b hperm c hc
    have hresto : ∀ x ∈ resto, permitido x = true :=
      fun x hx => hperm x (List.mem_cons_of_mem a hx)
    cases ha : esEspacio a with
    | true =>
      cases b with
      | true =>
        simp only [colapsarEspacios, ha, if_true] at hc
        exact ih true hresto c hc
      | false =>
        simp only [colapsarEspacios, ha, if_true, if_false, List.mem_cons] at hc
        cases hc with
        | head => exact saneado_guion_bajo
        | tail _ hc => exact ih true hresto c hc
    | false =>
      simp only [colapsarEspacios, ha, Bool.false_eq_true, if_false,
        List.mem_cons] at hc
      rcases hc with rfl | hc
      · exact saneado_of_permitido_not_espacio (hperm c (List.mem_cons_self c resto)) ha
      · exact ih false hresto c hc

lemma limpiarChars_saneado (l : List Char) :
    ∀ c ∈ limpiarChars l, saneado c = true := by
  intro c hc
  have hc' : c ∈ colapsarEspacios (quitarNoPermitidos l) false :=
    List.take_subset 100 _ hc
  refine colapsarEspacios_saneado (quitarNoPermitidos l) false ?_ c hc'
  intro x hx
  exact (List.mem_filter.1 hx).2

lemma quitarNoPermitidos_eq_self {l : List Char}
    (h : ∀ c ∈ l, saneado c = true) : quitarNoPermitidos l = l :=
  List.filter_eq_self.2 (fun c hc => permitido_of_saneado (h c hc))

lemma colapsarEspacios_eq_self :
    ∀ (l : List Char) (b : Bool), (∀ c ∈ l, saneado c = true) →
      colapsarEspacios l b = l := by
  intro l
  induction l with
  | nil => intro b _; rfl
  | cons a resto ih =>
    intro b h
    have ha : esEspacio a = false := espacio_of_saneado (h a (List.mem_cons_self a resto))
    simp only [colapsarEspacios, ha, Bool.false_eq_true, if_false]
    rw [ih false (fun x hx => h x (List.mem_cons_of_mem a hx))]

lemma limpiarChars_length (l : List Char) : (limpiarChars l).length ≤ 100 := by
  simp only [limpiarChars, List.length_take]
  exact Nat.min_le_left _ _

lemma limpiarChars_idem (l : List Char) :
    limpiarChars (limpiarChars l) = limpiarChars l := by
  have hs := limpiarChars_saneado l
  have h1 : quitarNoPermitidos (limpiarChars l) = limpiarChars l :=
    quitarNoPermitidos_eq_self hs
  have h2 : colapsarEspacios (limpiarChars l) false = limpiarChars l :=
    colapsarEspacios_eq_self (limpiarChars l) false hs
  calc limpiarChars (limpiarChars l)
      = (colapsarEspacios (quitarNoPermitidos (limpiarChars l)) false).take 100 := rfl
    _ = (limpiarChars l).take 100 := by rw [h1, h2]
    _ = limpiarChars l := List.take_of_length_le (limpiarChars_length l)

/-- C3: `limpiar_nombre_archivo` is deterministic (equal inputs give equal
outputs) and idempotent (sanitizing an already-sanitized name leaves it
unchanged). -/
theorem c3_limpiar_nombre_archivo_determinista_idempotente (s t : String) :
    (s = t → limpiar_nombre_archivo s = limpiar_nombre_archivo t) ∧
      limpiar_nombre_archivo (limpiar_nombre_archivo s) = limpiar_nombre_archivo s := by
  constructor
  · intro h; rw [h]
  · show String.mk (limpiarChars (limpiarChars s.data)) = String.mk (limpiarChars s.data)
    rw [limpiarChars_idem]

/-- C3 witness: the theorem instantiated at a concrete dataset name with
punctuation, accents and repeated whitespace. -/
theorem c3_limpiar_nombre_archivo_determinista_idempotente_witness :
    limpiar_nombre_archivo "Población flotante: año  2023 (INE)" =
        limpiar_nombre_archivo "Población flotante: año  2023 (INE)" ∧
      limpiar_nombre_archivo (limpiar_nombre_archivo "Población flotante: año  2023 (INE)") =
        limpiar_nombre_archivo "Población flotante: año  2023 (INE)" :=
  ⟨(c3_limpiar_nombre_archivo_determinista_idempotente
      "Población flotante: año  2023 (INE)" "Población flotante: año  2023 (INE)").1 rfl,
   (c3_limpiar_nombre_archivo_determinista_idempotente
      "Población flotante: año  2023 (INE)" "Población flotante: año  2023 (INE)").2⟩

lemma runPasos_of_firstFailing_some (fails : Paso → Option String) :
    ∀ (l : List Paso) (cur : String) (p : Paso) (msg : String),
      firstFailing fails l = some (p, msg) →
      runPasos fails l cur = (pasoLabel p, some msg) := by
  intro l
  induction l with
  | nil => intro cur p msg h; simp [firstFailing] at h
  | cons a resto ih =>
    intro cur p msg h
    cases hf : fails a with
    | some m =>
      simp only [firstFailing, hf] at h
      cases h
      simp [runPasos, hf]
    | none =>
      simp only [firstFailing, hf] at h
      simp only [runPasos, hf]
      exact ih (pasoLabel a) p msg h

lemma runPasos_of_firstFailing_none (fails : Paso → Option String) :
    ∀ (l : List Paso) (cur : String),
      firstFailing fails l = none →
      (runPasos fails l cur).2 = none := by
  intro l
  induction l with
  | nil => intro cur _; rfl
  | cons a resto ih =>
    intro cur h
    cases hf : fails a with
    | some m => simp [firstFailing, hf] at h
    | none =>
      simp only [firstFailing, hf] at h
      simp only [runPasos, hf]
      exact ih (pasoLabel a) h

lemma runPasos_label_mem (fails : Paso → Option String) :
    ∀ (l : List Paso) (cur lbl msg : String),
      runPasos fails l cur = (lbl, some msg) → lbl ∈ l.map pasoLabel := by
  intro l
  induction l with
  | nil => intro cur lbl msg h; simp [runPasos] at h
  | cons a resto ih =>
    intro cur lbl msg h
    cases hf : fails a with
    | some m =>
      simp only [runPasos, hf] at h
      cases h
      exact List.mem_cons_self _ _
    | none =>
      simp only [runPasos, hf] at h
      exact List.mem_cons_of_mem _ (ih (pasoLabel a) lbl msg h)

/-- C2: `descargar_dataset` never propagates a step exception.  If some
protocol step raises, the call returns a failure record stamped with the label
of the first raising step (the value of `paso_actual` at exception time), the
exception message and the elapsed time, and writes nothing to storage; if no
step raises, it returns a success record after writing exactly one artifact
to the storage backend. -/
theorem c2_descargar_dataset_contrato (c : Comportamiento) (info : DatasetInfo)
    (w : Nat) (fecha : String) :
    match firstFailing c.fails ordenPasos with
    | some (p, msg) =>
        (descargar_dataset c info w fecha).1.status = "fallido" ∧
        (descargar_dataset c info w fecha).1.paso_fallo = some (pasoLabel p) ∧
        (descargar_dataset c info w fecha).1.error = some msg ∧
        (descargar_dataset c info w fecha).1.duracion_segundos = c.dur ∧
        (descargar_dataset c info w fecha).2 = []
    | none =>
        (descargar_dataset c info w fecha).1.status = "exitoso" ∧
        (descargar_dataset c info w fecha).1.duracion_segundos = c.dur ∧
        (descargar_dataset c info w fecha).2.length = 1 := by
  cases hff : firstFailing c.fails ordenPasos with
  | some pm =>
    obtain ⟨p, msg⟩ := pm
    have hrun := runPasos_of_firstFailing_some c.fails ordenPasos "" p msg hff
    simp only [descargar_dataset, hrun]
    exact ⟨trivial, trivial, trivial, trivial, trivial⟩
  | none =>
    have hrun := runPasos_of_firstFailing_none c.fails ordenPasos "" hff
    simp only [descargar_dataset]
    rcases hr : runPasos c.fails ordenPasos "" with ⟨lbl, err⟩
    rw [hr] at hrun
    simp only at hrun
    subst hrun
    exact ⟨rfl, rfl, rfl⟩

/-- C8: every failure record produced by `descargar_dataset` carries a
`paso_fallo` equal to one of the six step labels of the protocol. -/
theorem c8_paso_fallo_en_seis_etiquetas (c : Comportamiento) (info : DatasetInfo)
    (w : Nat) (fecha : String)
    (h : (descargar_dataset c info w fecha).1.status = "fallido") :
    (descargar_dataset c info w fecha).1.paso_fallo ∈
      (ordenPasos.map pasoLabel).map Option.some := by
  rcases hr : runPasos c.fails ordenPasos "" with ⟨lbl, err⟩
  cases err with
  | none =>
    exfalso
    simp only [descargar_dataset, hr] at h
    exact absurd h (by decide)
  | some msg =>
    have hmem := runPasos_label_mem c.fails ordenPasos "" lbl msg hr
    simp only [descargar_dataset, hr]
    exact List.mem_map_of_mem Option.some hmem

/-- C8 witness: a concrete behaviour that times out while waiting for the
modal iframe produces a failure record whose `paso_fallo` is one of the six
labels. -/
theorem c8_paso_fallo_en_seis_etiquetas_witness :
    (descargar_dataset
        ⟨fun p => if p = .modalIframe then some "Timeout 30000ms exceeded" else none, 0, 31⟩
        ⟨"ine-001", "https://stat.ine.cl/?tm=1", "Población flotante", some "demografía"⟩
        2 "05-11-2025").1.status = "fallido" ∧
    (descargar_dataset
        ⟨fun p => if p = .modalIframe then some "Timeout 30000ms exceeded" else none, 0, 31⟩
        ⟨"ine-001", "https://stat.ine.cl/?tm=1", "Población flotante", some "demografía"⟩
        2 "05-11-2025").1.paso_fallo ∈
      (ordenPasos.map pasoLabel).map Option.some := by
  refine ⟨by decide, ?_⟩
  exact c8_paso_fallo_en_seis_etiquetas
    ⟨fun p => if p = .modalIframe then some "Timeout 30000ms exceeded" else none, 0, 31⟩
    ⟨"ine-001", "https://stat.ine.cl/?tm=1", "Población flotante", some "demografía"⟩
    2 "05-11-2025" (by decide)

lemma descargar_id (c : Comportamiento) (info : DatasetInfo) (w : Nat) (fecha : String) :
    (descargar_dataset c info w fecha).1.id = info.id := by
  rcases hr : runPasos c.fails ordenPasos "" with ⟨lbl, err⟩
  cases err <;> simp [descargar_dataset, hr]

lemma descargar_status_exitoso {c : Comportamiento} (info : DatasetInfo) (w : Nat)
    (fecha : String) (h : descargaExitosa c = true) :
    (descargar_dataset c info w fecha).1.status = "exitoso" := by
  unfold descargaExitosa at h
  rcases hr : runPasos c.fails ordenPasos "" with ⟨lbl, err⟩
  rw [hr] at h
  cases err with
  | none => simp [descargar_dataset, hr]
  | some m => simp at h

lemma descargar_status_fallido {c : Comportamiento} (info : DatasetInfo) (w : Nat)
    (fecha : String) (h : descargaExitosa c = false) :
    (descargar_dataset c info w fecha).1.status = "fallido" := by
  unfold descargaExitosa at h
  rcases hr : runPasos c.fails ordenPasos "" with ⟨lbl, err⟩
  rw [hr] at h
  cases err with
  | none => simp at h
  | some m => simp [descargar_dataset, hr]

lemma esExitosoReg_descargar (c : Comportamiento) (info : DatasetInfo) (w : Nat)
    (fecha : String) :
    esExitosoReg (descargar_dataset c info w fecha).1 = descargaExitosa c := by
  cases h : descargaExitosa c with
  | true => simp [esExitosoReg, descargar_status_exitoso info w fecha h]
  | false =>
    rw [esExitosoReg, descargar_status_fallido info w fecha h]
    decide

lemma descargar_categoria_exitoso {c : Comportamiento} (info : DatasetInfo) (w : Nat)
    (fecha : String) (h : descargaExitosa c = true) :
    (descargar_dataset c info w fecha).1.categoria = some (info.categoria.getD "general") := by
  unfold descargaExitosa at h
  rcases hr : runPasos c.fails ordenPasos "" with ⟨lbl, err⟩
  rw [hr] at h
  cases err with
  | none => simp [descargar_dataset, hr]
  | some m => simp at h

lemma descargar_categoria_fallido {c : Comportamiento} (info : DatasetInfo) (w : Nat)
    (fecha : String) (h : descargaExitosa c = false) :
    (descargar_dataset c info w fecha).1.categoria = none := by
  unfold descargaExitosa at h
  rcases hr : runPasos c.fails ordenPasos "" with ⟨lbl, err⟩
  rw [hr] at h
  cases err with
  | none => simp at h
  | some m => simp [descargar_dataset, hr]

/-! ## Permutation lemmas for the result collections -/

lemma map_id_registroDe (beh : String → Comportamiento) (fecha : String)
    (l : List (DatasetInfo × Nat)) :
    (l.map (registroDe beh fecha)).map (fun r => r.id) = l.map (fun t => t.1.id) := by
  rw [List.map_map]
  apply List.map_congr_left
  intro t _
  simp [Function.comp, registroDe, descargar_id]

lemma scrape_exitosos_eq (beh : String → Comportamiento) (fecha : String)
    (proc : List (DatasetInfo × Nat)) :
    (scrape_all_concurrent beh fecha proc).exitosos
      = (proc.filter (fun t => descargaExitosa (beh t.1.id))).map (registroDe beh fecha) := by
  show (proc.map (registroDe beh fecha)).filter esExitosoReg = _
  rw [List.filter_map]
  congr 1
  apply List.filter_congr
  intro t _
  simp [Function.comp, registroDe, esExitosoReg_descargar]

lemma scrape_fallidos_eq (beh : String → Comportamiento) (fecha : String)
    (proc : List (DatasetInfo × Nat)) :
    (scrape_all_concurrent beh fecha proc).fallidos
      = (proc.filter (fun t => !descargaExitosa (beh t.1.id))).map (registroDe beh fecha) := by
  show (proc.map (registroDe beh fecha)).filter (fun r => !esExitosoReg r) = _
  rw [List.filter_map]
  congr 1
  apply List.filter_congr
  intro t _
  simp [Function.comp, registroDe, esExitosoReg_descargar]

lemma filter_fst_ids (pb : DatasetInfo → Bool) (proc : List (DatasetInfo × Nat))
    (ds : List DatasetInfo) (hp : List.Perm (proc.map Prod.fst) ds) :
    List.Perm ((proc.filter (fun t => pb t.1)).map (fun t => t.1.id))
      ((ds.filter pb).map (fun d => d.id)) := by
  have h1 : (proc.filter (fun t => pb t.1)).map (fun t => t.1.id)
      = ((proc.map Prod.fst).filter pb).map (fun d => d.id) := by
    rw [List.filter_map, List.map_map]
    rfl
  rw [h1]
  exact (hp.filter pb).map _

lemma scrape_exitosos_ids_perm (beh : String → Comportamiento) (fecha : String)
    (proc : List (DatasetInfo × Nat)) (ds : List DatasetInfo)
    (hp : List.Perm (proc.map Prod.fst) ds) :
    List.Perm (idsDe (scrape_all_concurrent beh fecha proc).exitosos)
      ((ds.filter (fun d => descargaExitosa (beh d.id))).map (fun d => d.id)) := by
  rw [idsDe, scrape_exitosos_eq, map_id_registroDe]
  exact filter_fst_ids (fun d => descargaExitosa (beh d.id)) proc ds hp

lemma scrape_fallidos_ids_perm (beh : String → Comportamiento) (fecha : String)
    (proc : List (DatasetInfo × Nat)) (ds : List DatasetInfo)
    (hp : List.Perm (proc.map Prod.fst) ds) :
    List.Perm (idsDe (scrape_all_concurrent beh fecha proc).fallidos)
      ((ds.filter (fun d => !descargaExitosa (beh d.id))).map (fun d => d.id)) := by
  rw [idsDe, scrape_fallidos_eq, map_id_registroDe]
  exact filter_fst_ids (fun d => !descargaExitosa (beh d.id)) proc ds hp

lemma scrape_union_ids_perm (beh : String → Comportamiento) (fecha : String)
    (proc : List (DatasetInfo × Nat)) (ds : List DatasetInfo)
    (hp : List.Perm (proc.map Prod.fst) ds) :
    List.Perm
      (idsDe ((scrape_all_concurrent beh fecha proc).exitosos
        ++ (scrape_all_concurrent beh fecha proc).fallidos))
      (ds.map (fun d => d.id)) := by
  have h0 : idsDe ((scrape_all_concurrent beh fecha proc).exitosos
        ++ (scrape_all_concurrent beh fecha proc).fallidos)
      = ((proc.map (registroDe beh fecha)).filter esExitosoReg
          ++ (proc.map (registroDe beh fecha)).filter (fun r => !esExitosoReg r)).map
          (fun r => r.id) := rfl
  rw [h0]
  refine ((List.filter_append_perm esExitosoReg (proc.map (registroDe beh fecha))).map
      (fun r => r.id)).trans ?_
  rw [map_id_registroDe]
  have h1 : proc.map (fun t => t.1.id) = (proc.map Prod.fst).map (fun d => d.id) := by
    simp [List.map_map, Function.comp]
  rw [h1]
  exact hp.map _

/-! ## Properties of the retry pass -/

lemma retryOne_id (beh : String → Comportamiento) (fecha : String) (f : Registro) :
    (retryOne beh fecha f).id = f.id := by
  simp only [retryOne]
  split <;> simp [descargar_id, reconstruirInfo]

lemma retryOne_fue_reintentado (beh : String → Comportamiento) (fecha : String)
    (f : Registro) : (retryOne beh fecha f).fue_reintentado = some true := by
  simp only [retryOne]
  split <;> rfl

lemma retryOne_status (beh : String → Comportamiento) (fecha : String) (f : Registro) :
    (retryOne beh fecha f).status
      = (descargar_dataset (beh f.id) (reconstruirInfo f) 0 fecha).1.status := by
  simp only [retryOne]
  split <;> rfl

lemma retryOne_categoria (beh : String → Comportamiento) (fecha : String) (f : Registro) :
    (retryOne beh fecha f).categoria
      = (descargar_dataset (beh f.id) (reconstruirInfo f) 0 fecha).1.categoria := by
  simp only [retryOne]
  split <;> rfl

lemma esExitosoReg_retryOne (beh : String → Comportamiento) (fecha : String)
    (f : Registro) :
    esExitosoReg (retryOne beh fecha f) = descargaExitosa (beh f.id) := by
  rw [esExitosoReg, retryOne_status]
  rw [show ((descargar_dataset (beh f.id) (reconstruirInfo f) 0 fecha).1.status == "exitoso")
        = esExitosoReg (descargar_dataset (beh f.id) (reconstruirInfo f) 0 fecha).1 from rfl]
  exact esExitosoReg_descargar _ _ _ _

lemma retryOne_intento_previo (beh : String → Comportamiento) (fecha : String)
    (f : Registro) (h : esExitosoReg (retryOne beh fecha f) = true) :
    (retryOne beh fecha f).intento_previo_fallo = some (f.error.getD "Unknown") := by
  rw [esExitosoReg_retryOne] at h
  have h' : esExitosoReg (descargar_dataset (beh f.id) (reconstruirInfo f) 0 fecha).1 = true := by
    rw [esExitosoReg_descargar]; exact h
  simp only [retryOne]
  split
  · rfl
  · rename_i hcond
    exact absurd h' hcond

lemma retry_union_ids_perm (beh : String → Comportamiento) (fecha : String)
    (r : Resultados) :
    List.Perm
      (idsDe ((retry_failed_datasets beh fecha r).1.exitosos
        ++ (retry_failed_datasets beh fecha r).1.fallidos))
      (idsDe (r.exitosos ++ r.fallidos)) := by
  cases he : r.fallidos.isEmpty with
  | true => simp [retry_failed_datasets, he]
  | false =>
    simp only [retry_failed_datasets, he, Bool.false_eq_true, if_false]
    simp only [idsDe, List.map_append, List.append_assoc]
    refine List.Perm.append_left _ ?_
    have h1 := (List.filter_append_perm esExitosoReg
        (r.fallidos.map (retryOne beh fecha))).map (fun x => x.id)
    rw [List.map_append] at h1
    refine h1.trans ?_
    have h2 : (r.fallidos.map (retryOne beh fecha)).map (fun x => x.id)
        = r.fallidos.map (fun x => x.id) := by
      rw [List.map_map]
      apply List.map_congr_left
      intro f _
      simp [Function.comp, retryOne_id]
    rw [h2]

lemma fullRun_union_ids_perm (beh : String → Nat → Comportamiento) (fecha : String)
    (proc : List (DatasetInfo × Nat)) (ds : List DatasetInfo)
    (hp : List.Perm (proc.map Prod.fst) ds) :
    List.Perm
      (idsDe ((fullRun beh fecha proc).resultados.exitosos
        ++ (fullRun beh fecha proc).resultados.fallidos))
      (ds.map (fun d => d.id)) := by
  have h1 := scrape_union_ids_perm (fun i => beh i 0) fecha proc ds hp
  cases he : (scrape_all_concurrent (fun i => beh i 0) fecha proc).fallidos.isEmpty with
  | true =>
    simp only [fullRun, he, if_true]
    exact h1
  | false =>
    simp only [fullRun, he, Bool.false_eq_true, if_false]
    exact (retry_union_ids_perm (fun i => beh i 1) fecha
      (scrape_all_concurrent (fun i => beh i 0) fecha proc)).trans h1

/-- C1: in a crash-free run over any processing schedule of the catalog slice,
after the concurrent pass and the single retry pass the union of `exitosos`
and `fallidos` holds exactly one record per catalog dataset id: every
processed id occurs exactly once, and no other id occurs. -/
theorem c1_union_un_registro_por_dataset (beh : String → Nat → Comportamiento)
    (fecha : String) (maxDatasets : Option Nat) (datasets : List DatasetInfo)
    (proc : List (DatasetInfo × Nat))
    (hp : List.Perm (proc.map Prod.fst) (datasets_a_procesar maxDatasets datasets))
    (hnodup : ((datasets_a_procesar maxDatasets datasets).map (fun d => d.id)).Nodup)
    (i : String) :
    (idsDe ((fullRun beh fecha proc).resultados.exitosos
        ++ (fullRun beh fecha proc).resultados.fallidos)).count i
      = if i ∈ (datasets_a_procesar maxDatasets datasets).map (fun d => d.id)
        then 1 else 0 := by
  have hperm := fullRun_union_ids_perm beh fecha proc
    (datasets_a_procesar maxDatasets datasets) hp
  rw [hperm.count_eq]
  by_cases hm : i ∈ (datasets_a_procesar maxDatasets datasets).map (fun d => d.id)
  · rw [if_pos hm]
    exact List.count_eq_one_of_mem hnodup hm
  · rw [if_neg hm]
    exact List.count_eq_zero_of_not_mem hm

/-- C9: for a fixed catalog slice and a deterministic per-dataset-id
behaviour, any two crash-free processing schedules — in particular a
single-worker schedule and a four-worker schedule — yield the same Success
set and the same Failure set of dataset ids (membership identical, order
possibly not). -/
theorem c9_conjuntos_independientes_de_workers (beh : String → Comportamiento)
    (fecha : String) (proc1 proc2 : List (DatasetInfo × Nat)) (ds : List DatasetInfo)
    (hp1 : List.Perm (proc1.map Prod.fst) ds)
    (hp2 : List.Perm (proc2.map Prod.fst) ds) :
    List.Perm (idsDe (scrape_all_concurrent beh fecha proc1).exitosos)
      (idsDe (scrape_all_concurrent beh fecha proc2).exitosos) ∧
    List.Perm (idsDe (scrape_all_concurrent beh fecha proc1).fallidos)
      (idsDe (scrape_all_concurrent beh fecha proc2).fallidos) :=
  ⟨(scrape_exitosos_ids_perm beh fecha proc1 ds hp1).trans
      (scrape_exitosos_ids_perm beh fecha proc2 ds hp2).symm,
   (scrape_fallidos_ids_perm beh fecha proc1 ds hp1).trans
      (scrape_fallidos_ids_perm beh fecha proc2 ds hp2).symm⟩

/-- C1 witness: the theorem instantiated on a two-dataset catalog in which
`ine-002` fails both attempts, processed in reversed order by two workers. -/
theorem c1_union_un_registro_por_dataset_witness :
    (idsDe ((fullRun behDosFallaSiempre "05-11-2025" procCuatroWorkers).resultados.exitosos
        ++ (fullRun behDosFallaSiempre "05-11-2025" procCuatroWorkers).resultados.fallidos)).count
        "ine-002"
      = if "ine-002" ∈ (datasets_a_procesar none catalogoTest).map (fun d => d.id)
        then 1 else 0 :=
  c1_union_un_registro_por_dataset behDosFallaSiempre "05-11-2025" none catalogoTest
    procCuatroWorkers (by decide) (by decide) "ine-002"

/-- C9 witness: the theorem instantiated on the one-worker and four-worker
schedules of the same two-dataset catalog. -/
theorem c9_conjuntos_independientes_de_workers_witness :
    List.Perm
      (idsDe (scrape_all_concurrent behDosFalla "05-11-2025" procUnWorker).exitosos)
      (idsDe (scrape_all_concurrent behDosFalla "05-11-2025" procCuatroWorkers).exitosos) ∧
    List.Perm
      (idsDe (scrape_all_concurrent behDosFalla "05-11-2025" procUnWorker).fallidos)
      (idsDe (scrape_all_concurrent behDosFalla "05-11-2025" procCuatroWorkers).fallidos) :=
  c9_conjuntos_independientes_de_workers behDosFalla "05-11-2025" procUnWorker
    procCuatroWorkers catalogoTest (by decide) (by decide)

/-! ## The retry pass re-attempts exactly the failure set -/

lemma filter_intentos_cero (l : List (DatasetInfo × Nat)) :
    (l.map (fun t => (t.1.id, 0))).filter (fun a : String × Nat => a.2 == 1) = [] := by
  rw [List.filter_eq_nil_iff]
  intro a ha
  obtain ⟨t, _, rfl⟩ := List.mem_map.1 ha
  simp

lemma filter_intentos_uno (l : List Registro) :
    (l.map (fun f => ((reconstruirInfo f).id, 1))).filter (fun a : String × Nat => a.2 == 1)
      = l.map (fun f => ((reconstruirInfo f).id, 1)) := by
  rw [List.filter_eq_self]
  intro a ha
  obtain ⟨f, _, rfl⟩ := List.mem_map.1 ha
  rfl

lemma map_fst_intentos_uno (l : List Registro) :
    (l.map (fun f => ((reconstruirInfo f).id, 1))).map Prod.fst = idsDe l := by
  rw [List.map_map]
  apply List.map_congr_left
  intro f _
  rfl

lemma union_ids_nodup (beh : String → Comportamiento) (fecha : String)
    (proc : List (DatasetInfo × Nat)) (ds : List DatasetInfo)
    (hp : List.Perm (proc.map Prod.fst) ds)
    (hnodup : (ds.map (fun d => d.id)).Nodup) :
    (idsDe (scrape_all_concurrent beh fecha proc).exitosos
      ++ idsDe (scrape_all_concurrent beh fecha proc).fallidos).Nodup := by
  have hperm := scrape_union_ids_perm beh fecha proc ds hp
  have h0 : idsDe ((scrape_all_concurrent beh fecha proc).exitosos
        ++ (scrape_all_concurrent beh fecha proc).fallidos)
      = idsDe (scrape_all_concurrent beh fecha proc).exitosos
        ++ idsDe (scrape_all_concurrent beh fecha proc).fallidos := by
    simp [idsDe, List.map_append]
  rw [h0] at hperm
  exact hperm.symm.nodup hnodup

/-- C5: the retry pass re-attempts exactly the datasets in `fallidos` at
retry-start time.  Concretely: the level-1 entries of the attempt log are the
ids of the post-concurrent-pass failure collection in order; no dataset that
succeeded in the concurrent pass is ever re-attempted; every attempt number
is 0 or 1 (the retry pass runs at most once per invocation); and no dataset
is re-attempted twice. -/
theorem c5_reintento_exactamente_fallidos (beh : String → Nat → Comportamiento)
    (fecha : String) (maxDatasets : Option Nat) (datasets : List DatasetInfo)
    (proc : List (DatasetInfo × Nat))
    (hp : List.Perm (proc.map Prod.fst) (datasets_a_procesar maxDatasets datasets))
    (hnodup : ((datasets_a_procesar maxDatasets datasets).map (fun d => d.id)).Nodup) :
    (((fullRun beh fecha proc).intentos.filter (fun a => a.2 == 1)).map Prod.fst
        = idsDe (scrape_all_concurrent (fun i => beh i 0) fecha proc).fallidos) ∧
    (∀ x ∈ (scrape_all_concurrent (fun i => beh i 0) fecha proc).exitosos,
        (x.id, 1) ∉ (fullRun beh fecha proc).intentos) ∧
    (∀ a ∈ (fullRun beh fecha proc).intentos, a.2 ≤ 1) ∧
    (((fullRun beh fecha proc).intentos.filter (fun a => a.2 == 1)).map Prod.fst).Nodup := by
  have hnd := union_ids_nodup (fun i => beh i 0) fecha proc
    (datasets_a_procesar maxDatasets datasets) hp hnodup
  cases he : (scrape_all_concurrent (fun i => beh i 0) fecha proc).fallidos.isEmpty with
  | true =>
    have hnil : (scrape_all_concurrent (fun i => beh i 0) fecha proc).fallidos = [] :=
      List.isEmpty_iff.1 he
    simp only [fullRun, he, if_true]
    refine ⟨?_, ?_, ?_, ?_⟩
    · rw [filter_intentos_cero, hnil]
      rfl
    · intro x _ hmem
      obtain ⟨t, _, habs⟩ := List.mem_map.1 hmem
      rw [Prod.mk.injEq] at habs
      exact absurd habs.2 (by decide)
    · intro a ha
      obtain ⟨t, _, rfl⟩ := List.mem_map.1 ha
      simp
    · rw [filter_intentos_cero]
      exact List.nodup_nil
  | false =>
    simp only [fullRun, he, Bool.false_eq_true, if_false]
    refine ⟨?_, ?_, ?_, ?_⟩
    · rw [List.filter_append, filter_intentos_cero, filter_intentos_uno,
        List.nil_append, map_fst_intentos_uno]
    · intro x hx hmem
      rcases List.mem_append.1 hmem with hmem | hmem
      · obtain ⟨t, _, habs⟩ := List.mem_map.1 hmem
        rw [Prod.mk.injEq] at habs
        exact absurd habs.2 (by decide)
      · obtain ⟨f, hf, habs⟩ := List.mem_map.1 hmem
        rw [Prod.mk.injEq] at habs
        have hxid : x.id ∈ idsDe (scrape_all_concurrent (fun i => beh i 0) fecha proc).exitosos :=
          List.mem_map_of_mem (fun r => r.id) hx
        have hfid : x.id ∈ idsDe (scrape_all_concurrent (fun i => beh i 0) fecha proc).fallidos := by
          rw [show x.id = f.id from habs.1.symm]
          exact List.mem_map_of_mem (fun r => r.id) hf
        exact (List.nodup_append.1 hnd).2.2 hxid hfid
    · intro a ha
      rcases List.mem_append.1 ha with ha | ha
      · obtain ⟨t, _, rfl⟩ := List.mem_map.1 ha
        simp
      · obtain ⟨f, _, rfl⟩ := List.mem_map.1 ha
        simp
    · rw [List.filter_append, filter_intentos_cero, filter_intentos_uno,
        List.nil_append, map_fst_intentos_uno]
      exact (List.nodup_append.1 hnd).2.1

/-- C5 witness: the theorem instantiated on the two-dataset catalog in which
`ine-002` fails the concurrent pass. -/
theorem c5_reintento_exactamente_fallidos_witness :
    (((fullRun behDosFallaSiempre "05-11-2025" procUnWorker).intentos.filter
          (fun a => a.2 == 1)).map Prod.fst
        = idsDe (scrape_all_concurrent (fun i => behDosFallaSiempre i 0) "05-11-2025"
            procUnWorker).fallidos) ∧
    (∀ x ∈ (scrape_all_concurrent (fun i => behDosFallaSiempre i 0) "05-11-2025"
          procUnWorker).exitosos,
        (x.id, 1) ∉ (fullRun behDosFallaSiempre "05-11-2025" procUnWorker).intentos) ∧
    (∀ a ∈ (fullRun behDosFallaSiempre "05-11-2025" procUnWorker).intentos, a.2 ≤ 1) ∧
    (((fullRun behDosFallaSiempre "05-11-2025" procUnWorker).intentos.filter
        (fun a => a.2 == 1)).map Prod.fst).Nodup :=
  c5_reintento_exactamente_fallidos behDosFallaSiempre "05-11-2025" none catalogoTest
    procUnWorker (by decide) (by decide)

/-! ## Behaviour of the retry pass on each failed entry -/

lemma retry_count_eq (beh : String → Comportamiento) (fecha : String) (r : Resultados)
    (h0 : ∀ x ∈ r.exitosos, x.fue_reintentado.getD false = false) :
    (retry_failed_datasets beh fecha r).2.1
      = (r.fallidos.filter (fun f => esExitosoReg (retryOne beh fecha f))).length := by
  cases he : r.fallidos.isEmpty with
  | true =>
    have hnil : r.fallidos = [] := List.isEmpty_iff.1 he
    simp [retry_failed_datasets, he, hnil]
  | false =>
    simp only [retry_failed_datasets, he, Bool.false_eq_true, if_false]
    rw [List.filter_append, List.length_append]
    have hizq : r.exitosos.filter (fun x => x.fue_reintentado.getD false) = [] := by
      rw [List.filter_eq_nil_iff]
      intro x hx
      rw [h0 x hx]
      decide
    have hder : ((r.fallidos.map (retryOne beh fecha)).filter esExitosoReg).filter
        (fun x => x.fue_reintentado.getD false)
        = (r.fallidos.map (retryOne beh fecha)).filter esExitosoReg := by
      rw [List.filter_eq_self]
      intro x hx
      obtain ⟨f, _, rfl⟩ := List.mem_map.1 (List.mem_of_mem_filter hx)
      rw [retryOne_fue_reintentado]
      rfl
    rw [hizq, hder]
    have hfm : (r.fallidos.map (retryOne beh fecha)).filter esExitosoReg
        = (r.fallidos.filter (fun f => esExitosoReg (retryOne beh fecha f))).map
            (retryOne beh fecha) :=
      List.filter_map (retryOne beh fecha) r.fallidos
    rw [hfm, List.length_map]
    simp

/-- C6: every entry of the failure set whose retry attempt succeeds is moved
to `exitosos` flagged `fue_reintentado` and carrying the prior error message
in `intento_previo_fallo`; every entry that fails again is re-appended to
`fallidos` flagged `fue_reintentado`; the returned count is the number of
newly-successful retries, and the returned time is the elapsed retry time
(sum of attempt durations in this model).  The hypothesis states that no
record of the concurrent pass already carries the retry flag, as is the case
for every record produced by `descargar_dataset`. -/
theorem c6_reintento_marca_y_cuenta (beh : String → Comportamiento) (fecha : String)
    (r : Resultados)
    (h0 : ∀ x ∈ r.exitosos, x.fue_reintentado.getD false = false) :
    (∀ f ∈ r.fallidos,
      (esExitosoReg (retryOne beh fecha f) = true →
        retryOne beh fecha f ∈ (retry_failed_datasets beh fecha r).1.exitosos ∧
        (retryOne beh fecha f).fue_reintentado = some true ∧
        (retryOne beh fecha f).intento_previo_fallo = some (f.error.getD "Unknown")) ∧
      (esExitosoReg (retryOne beh fecha f) = false →
        retryOne beh fecha f ∈ (retry_failed_datasets beh fecha r).1.fallidos ∧
        (retryOne beh fecha f).fue_reintentado = some true)) ∧
    (retry_failed_datasets beh fecha r).2.1
      = (r.fallidos.filter (fun f => esExitosoReg (retryOne beh fecha f))).length ∧
    (retry_failed_datasets beh fecha r).2.2
      = ((r.fallidos.map (retryOne beh fecha)).map (fun x => x.duracion_segundos)).sum := by
  refine ⟨?_, retry_count_eq beh fecha r h0, ?_⟩
  · intro f hf
    have hne : r.fallidos.isEmpty = false := by
      cases hemp : r.fallidos.isEmpty with
      | true => rw [List.isEmpty_iff.1 hemp] at hf; cases hf
      | false => rfl
    constructor
    · intro hsx
      refine ⟨?_, retryOne_fue_reintentado beh fecha f,
        retryOne_intento_previo beh fecha f hsx⟩
      simp only [retry_failed_datasets, hne, Bool.false_eq_true, if_false]
      refine List.mem_append.2 (Or.inr ?_)
      exact List.mem_filter.2 ⟨List.mem_map_of_mem (retryOne beh fecha) hf, hsx⟩
    · intro hfx
      refine ⟨?_, retryOne_fue_reintentado beh fecha f⟩
      simp only [retry_failed_datasets, hne, Bool.false_eq_true, if_false]
      refine List.mem_filter.2 ⟨List.mem_map_of_mem (retryOne beh fecha) hf, ?_⟩
      rw [hfx]
      rfl
  · cases he : r.fallidos.isEmpty with
    | true =>
      have hnil : r.fallidos = [] := List.isEmpty_iff.1 he
      simp [retry_failed_datasets, he, hnil]
    | false =>
      simp only [retry_failed_datasets, he, Bool.false_eq_true, if_false]

/-- C6 witness: a concrete retry pass over one prior success (unflagged) and
one prior failure whose retry succeeds; the retried record lands in
`exitosos`, carries both flags, and the count is 1. -/
theorem c6_reintento_marca_y_cuenta_witness :
    retryOne (fun _ => compSiempreOk) "05-11-2025"
        (descargar_dataset compNavegacionFalla dsetB 2 "05-11-2025").1
      ∈ (retry_failed_datasets (fun _ => compSiempreOk) "05-11-2025"
          ⟨[(descargar_dataset compSiempreOk dsetA 1 "05-11-2025").1],
           [(descargar_dataset compNavegacionFalla dsetB 2 "05-11-2025").1]⟩).1.exitosos ∧
    (retryOne (fun _ => compSiempreOk) "05-11-2025"
        (descargar_dataset compNavegacionFalla dsetB 2 "05-11-2025").1).fue_reintentado
      = some true ∧
    (retryOne (fun _ => compSiempreOk) "05-11-2025"
        (descargar_dataset compNavegacionFalla dsetB 2 "05-11-2025").1).intento_previo_fallo
      = some (((descargar_dataset compNavegacionFalla dsetB 2 "05-11-2025").1.error).getD
          "Unknown") := by
  have h := c6_reintento_marca_y_cuenta (fun _ => compSiempreOk) "05-11-2025"
    ⟨[(descargar_dataset compSiempreOk dsetA 1 "05-11-2025").1],
     [(descargar_dataset compNavegacionFalla dsetB 2 "05-11-2025").1]⟩
    (by decide)
  exact (h.1 (descargar_dataset compNavegacionFalla dsetB 2 "05-11-2025").1
    (by decide)).1 (by decide)

/-- C10: a dataset whose first attempt fails and whose retry succeeds ends up
in `exitosos` with `categoria = "general"` whatever its catalog category,
because the failure record of `descargar_dataset` carries no `categoria` key
and `retry_failed_datasets` rebuilds the descriptor from the failure record
alone (`dataset_fallido.get('categoria', 'general')`). -/
theorem c10_reintento_pierde_categoria (c0 c1 : Comportamiento) (d : DatasetInfo)
    (w : Nat) (fecha : String) (ex : List Registro)
    (hf : descargaExitosa c0 = false) (hs : descargaExitosa c1 = true) :
    (retry_failed_datasets (fun _ => c1) fecha
        ⟨ex, [(descargar_dataset c0 d w fecha).1]⟩).1.exitosos
      = ex ++ [retryOne (fun _ => c1) fecha (descargar_dataset c0 d w fecha).1] ∧
    (retryOne (fun _ => c1) fecha (descargar_dataset c0 d w fecha).1).status = "exitoso" ∧
    (retryOne (fun _ => c1) fecha (descargar_dataset c0 d w fecha).1).id = d.id ∧
    (retryOne (fun _ => c1) fecha (descargar_dataset c0 d w fecha).1).categoria
      = some "general" := by
  have hsx : esExitosoReg (retryOne (fun _ => c1) fecha
      (descargar_dataset c0 d w fecha).1) = true := by
    rw [esExitosoReg_retryOne]
    exact hs
  refine ⟨?_, ?_, ?_, ?_⟩
  · simp only [retry_failed_datasets, List.isEmpty_cons, Bool.false_eq_true, if_false]
    congr 1
    simp [List.filter, hsx]
  · rw [retryOne_status]
    exact descargar_status_exitoso _ _ _ hs
  · rw [retryOne_id]
    exact descargar_id c0 d w fecha
  · rw [retryOne_categoria, descargar_categoria_exitoso _ _ _ hs]
    have hcat : (descargar_dataset c0 d w fecha).1.categoria = none :=
      descargar_categoria_fallido d w fecha hf
    simp [reconstruirInfo, hcat]

/-- C10 witness: dataset `dsetA` has catalog category `medioambiente`; after
a failed first attempt and a successful retry its success record carries
`categoria = "general"`. -/
theorem c10_reintento_pierde_categoria_witness :
    (retry_failed_datasets (fun _ => compSiempreOk) "05-11-2025"
        ⟨[], [(descargar_dataset compNavegacionFalla dsetA 3 "05-11-2025").1]⟩).1.exitosos
      = [] ++ [retryOne (fun _ => compSiempreOk) "05-11-2025"
          (descargar_dataset compNavegacionFalla dsetA 3 "05-11-2025").1] ∧
    (retryOne (fun _ => compSiempreOk) "05-11-2025"
        (descargar_dataset compNavegacionFalla dsetA 3 "05-11-2025").1).status = "exitoso" ∧
    (retryOne (fun _ => compSiempreOk) "05-11-2025"
        (descargar_dataset compNavegacionFalla dsetA 3 "05-11-2025").1).id = dsetA.id ∧
    (retryOne (fun _ => compSiempreOk) "05-11-2025"
        (descargar_dataset compNavegacionFalla dsetA 3 "05-11-2025").1).categoria
      = some "general" :=
  c10_reintento_pierde_categoria compNavegacionFalla compSiempreOk dsetA 3 "05-11-2025"
    [] (by decide) (by decide)

/-- C4 counterexample: when stage 1 (scraping) raises, the stage-1 reporter —
the Run Reporter `scraper.generar_reporte` — does **not** execute, contrary to
the claim that report generation covers the per-stage reporters on every
exceptional path; only the consolidated reporter runs. -/
theorem c4_reporter_de_etapa_no_garantizado :
    ReporterRun.stage 1 ∉
      (ejecutar_pipeline_completo (fun n => n == 1)).estado.reporters ∧
    (ejecutar_pipeline_completo (fun n => n == 1)).estado.reporters
      = [ReporterRun.consolidado] := by
  constructor
  · decide
  · decide

/-- C4 (amended): the consolidated report generation
(`generar_reporte_consolidado`) runs on a guaranteed-cleanup path: for every
combination of stage outcomes — all stages succeeding, any stage raising,
stage 6 swallowing its exception — the `finally` block executes it exactly
once, as the last report of the run. -/
theorem c4_reporte_consolidado_siempre (raisesAt : Nat → Bool) :
    ReporterRun.consolidado ∈ (ejecutar_pipeline_completo raisesAt).estado.reporters := by
  rw [ejecutar_pipeline_completo]
  cases runStagesDesde raisesAt [1, 2, 3, 4, 5, 6] ⟨[], [], []⟩ with
  | ok st => simp
  | error st => simp

/-- C7: report totals do satisfy `total = exitosos + fallidos` and the
success-rate formula whenever a report is produced — but with empty result
collections (`total == 0`) `generar_reporte` raises `ZeroDivisionError` at
the unguarded console line `tiempo_total_segundos/total` and never persists
the report, although the JSON fields of the very same function guard
`total > 0`. -/
theorem c7_reporte_total_cero_divide_por_cero :
    generar_reporte ⟨[], []⟩ 37 0
      = Except.error "ZeroDivisionError: division by zero" := by
  rfl

/-- The totals relation that does hold on every produced report:
`total = exitosos + fallidos` and `tasa = exitosos/total*100` (this part of
the claim is correct; only the unguarded `total == 0` console division makes
the empty case raise instead of persisting). -/
theorem generar_reporte_totales (r : Resultados) (t : ℚ) (n : Nat)
    (h : 0 < r.exitosos.length + r.fallidos.length) :
    ∃ rep, generar_reporte r t n = Except.ok rep ∧
      rep.total_datasets = r.exitosos.length + r.fallidos.length ∧
      rep.exitosos = r.exitosos.length ∧
      rep.fallidos = r.fallidos.length ∧
      rep.tasa_exito_porcentaje
        = (r.exitosos.length : ℚ) / ((r.exitosos.length + r.fallidos.length : Nat) : ℚ) * 100 := by
  have h0 : r.exitosos.length + r.fallidos.length ≠ 0 := Nat.pos_iff_ne_zero.1 h
  refine ⟨{ total_datasets := r.exitosos.length + r.fallidos.length
            exitosos := r.exitosos.length
            exitosos_reintentados := n
            fallidos := r.fallidos.length
            tasa_exito_porcentaje :=
              if r.exitosos.length + r.fallidos.length > 0
              then (r.exitosos.length : ℚ)
                  / ((r.exitosos.length + r.fallidos.length : Nat) : ℚ) * 100
              else 0
            total_bytes := (r.exitosos.map (fun x => x.size.getD 0)).sum
            velocidad_segundos_por_dataset :=
              t / ((r.exitosos.length + r.fallidos.length : Nat) : ℚ) },
      ?_, rfl, rfl, rfl, ?_⟩
  · rw [generar_reporte]
    simp only [if_neg h0]
  · exact if_pos h
